import Mathlib

/-!
Shallow embedding of `tg_planner_bot`: the chart generator
(`src/graph_generator.py`, class `GraphGenerator`) and the reasoning client
(`src/grok_client.py`, class `GrokClient`), with the theorems that settle the
spec claims about them.

Modelling conventions:
* Timestamp strings are represented by their parse result: a field of type
  `Option DT` is `some dt` when `datetime.fromisoformat` succeeds on the
  field of the event and `none` when the field is absent or fails to parse.
  `DT` records exactly the projections of a parsed `datetime` that the
  renderers read (`.weekday()`, `.hour`, `.day`, and the elapsed time used
  in the Gantt arithmetic, kept exact in `ℚ`).
* Rendered images are represented by the data plotted into them
  (`Render`): a friendly-message placeholder, or a chart carrying the
  bar/heatmap/series data that the matplotlib calls receive.
* `datetime.now()` appears as an explicit parameter (`baseH`, `nowDay`),
  and the `np.random.randint` draw of the year renderer as a `rand` list.
-/

namespace TgPlanner

/-- Python `str.lower()` restricted to the alphabets the keyword sets use:
ASCII `A`-`Z` and Cyrillic `А`-`Я` / `Ё`. -/
def lowerChar (c : Char) : Char :=
  if c.val ≥ 0x41 ∧ c.val ≤ 0x5A then Char.ofNat (c.toNat + 0x20)
  else if c.val ≥ 0x410 ∧ c.val ≤ 0x42F then Char.ofNat (c.toNat + 0x20)
  else if c.val = 0x401 then Char.ofNat 0x451
  else c

/-- Python `str.lower()` on a whole string (see `lowerChar`). -/
def lowerStr (s : String) : String := String.mk (s.data.map lowerChar)

/-- `needle` is a prefix of `hay` (over character lists). -/
def startsWithChars : List Char → List Char → Bool
  | [], _ => true
  | _ :: _, [] => false
  | a :: as, b :: bs => a = b && startsWithChars as bs

/-- `needle` occurs contiguously in `hay`: the Python test `needle in hay`. -/
def containsChars (needle : List Char) : List Char → Bool
  | [] => startsWithChars needle []
  | h :: t => startsWithChars needle (h :: t) || containsChars needle t

/-- the Python substring test `needle in hay` on strings. -/
def strContains (hay needle : String) : Bool :=
  containsChars needle.data hay.data

/-- Projections of a parsed `datetime` that the renderers read.
`absHours` is the elapsed time since a fixed epoch, in hours, kept exact. -/
structure DT where
  absHours : ℚ
  weekday : ℕ
  hour : ℕ
  day : ℕ
deriving DecidableEq, Repr

/-- One event dict as the renderers consume it.  `startKey` records whether
the dict carries a `"start"` key at all (the pandas column test in `month_bar`);
`start`/`stop` are the parse results of the start/end timestamps (`stop`
stands for the source field `end`, a Lean keyword), `none` on absence or parse
failure. -/
structure Event where
  title : Option String
  color : Option String
  startKey : Bool
  start : Option DT
  stop : Option DT
deriving DecidableEq, Repr

/-- `GraphGenerator.COLORS` (graph_generator.py line 49). -/
def COLORS : List (String × String) :=
  [("lesson", "#FF6B6B"), ("meeting", "#4ECDC4"), ("goal", "#FFD166"),
   ("sport", "#06D6A0"), ("default", "#45B7D1")]

/-- `COLORS[k]` — every key the source looks up is present. -/
def colorOf (k : String) : String := ((COLORS.lookup k).getD "")

/-- The three keyword sets of `_get_event_color` (lines 95, 97, 99). -/
def lessonWords : List String := ["физика", "математика", "урок", "кр", "контрольная"]

def meetingWords : List String := ["встреча", "митинг", "бизнес", "собеседование"]

def goalWords : List String := ["цель", "план", "похудеть", "выучить"]

/-- `GraphGenerator._get_event_color` (lines 91-101): keyword categories are
tried on the lowercased title first; the `color` field of the event itself is read
only in the final `return`, before the default. -/
def _get_event_color (ev : Event) : String :=
  let t := lowerStr (ev.title.getD "")
  if lessonWords.any (fun w => strContains t w) then colorOf "lesson"
  else if meetingWords.any (fun w => strContains t w) then colorOf "meeting"
  else if goalWords.any (fun w => strContains t w) then colorOf "goal"
  else ev.color.getD (colorOf "default")

/-- One row of the day Gantt: label, bar start (hours after midnight),
bar length (hours), bar colour. -/
structure DayRow where
  label : String
  startH : ℚ
  durH : ℚ
  color : String
deriving DecidableEq, Repr

/-- The loop body of `day_gantt` (lines 126-139) for the event at index `i`:
on a parse failure of either timestamp the synthetic placeholder
`start = base + i*1.8h`, `end = start + 1.2h` is used. -/
def dayRow (baseH : ℚ) (i : ℕ) (ev : Event) : DayRow :=
  match ev.start, ev.stop with
  | some s, some e =>
      ⟨ev.title.getD ("Задача " ++ toString (i + 1)),
       s.absHours - baseH, e.absHours - s.absHours, _get_event_color ev⟩
  | _, _ =>
      ⟨ev.title.getD ("Задача " ++ toString (i + 1)),
       (9 / 5 : ℚ) * i, 6 / 5, _get_event_color ev⟩

/-- One row of the semester Gantt: label, bar start and length in weeks. -/
structure SemRow where
  label : String
  startW : ℚ
  durW : ℚ
  color : String
deriving DecidableEq, Repr

/-- The loop body of `semester_gantt` (lines 298-309): `(start - base).days / 7`
(`timedelta.days` floors); placeholder `start = base + i weeks`,
`end = start + 2 weeks` on parse failure. -/
def semRow (baseH : ℚ) (i : ℕ) (ev : Event) : SemRow :=
  match ev.start, ev.stop with
  | some s, some e =>
      ⟨ev.title.getD ("Неделя " ++ toString (i + 1)),
       ((⌊(s.absHours - baseH) / 24⌋ : ℤ) : ℚ) / 7,
       ((⌊(e.absHours - s.absHours) / 24⌋ : ℤ) : ℚ) / 7,
       _get_event_color ev⟩
  | _, _ =>
      ⟨ev.title.getD ("Неделя " ++ toString (i + 1)), (i : ℚ), 2,
       _get_event_color ev⟩

/-- The data a renderer plots into its figure. -/
inductive ChartPayload where
  | day (rows : List DayRow)
  | week (grid : ℕ → ℕ → ℕ)
  | month (daily : List (ℕ × ℕ))
  | semester (rows : List SemRow)
  | year (done : ℕ)

/-- A rendered image: either a friendly-message placeholder or a chart. -/
inductive Render where
  | placeholder (msg : String)
  | chart (p : ChartPayload)

/-- Whether a rendered image is the friendly-message placeholder. -/
def Render.isPlaceholder : Render → Bool
  | .placeholder _ => true
  | .chart _ => false

/-- `GraphGenerator.day_gantt` (lines 104-177): empty input yields the
friendly placeholder; otherwise the first 30 events (`events[:30]`) become
Gantt rows. -/
def day_gantt (baseH : ℚ) (events : List Event) : Render :=
  if events.isEmpty then
    .placeholder "На сегодня событий нет 😔\nНапиши мне что-нибудь!"
  else
    .chart (.day (((events.take 30).enum).map fun p => dayRow baseH p.1 p.2))

/-- The per-event update of the `week_heatmap` loop (lines 188-196): an
event with a parsable start and `6 ≤ hour < 24` increments cell
`(hour - 6, weekday)`; any other event is skipped (`except: pass`). -/
def weekStep (g : ℕ → ℕ → ℕ) (ev : Event) : ℕ → ℕ → ℕ :=
  match ev.start with
  | none => g
  | some dt =>
      if 6 ≤ dt.hour ∧ dt.hour < 24 then
        fun hi di => if hi = dt.hour - 6 ∧ di = dt.weekday then g hi di + 1 else g hi di
      else g

/-- `GraphGenerator.week_heatmap` (lines 180-224): a 18×7 occupancy grid
accumulated over the whole event list — no empty-input branch and no
truncation. -/
def week_heatmap (events : List Event) : Render :=
  .chart (.week (events.foldl weekStep (fun _ _ => 0)))

/-- The day-of-month of the parsed start of an event, when it parses
(`pd.to_datetime` with coercing errors, then `.dt.day`; `NaT` rows are
dropped by the `groupby`). -/
def startDay? (ev : Event) : Option ℕ := ev.start.map DT.day

/-- `df.groupby(day).size().reindex(range(1, 32), fill_value=0)`
(line 239): the event count for each day 1..31, zero-filled. -/
def monthDaily (events : List Event) : List (ℕ × ℕ) :=
  (List.range 31).map fun i => (i + 1, (events.filterMap startDay?).count (i + 1))

/-- `GraphGenerator.month_bar` (lines 227-274): empty input falls back to
`day_gantt([])`; when no event dict has a `"start"` key the column is filled
with `datetime.now()` so every event lands on the current day; otherwise the
per-day counts of `monthDaily`. -/
def month_bar (baseH : ℚ) (nowDay : ℕ) (events : List Event) : Render :=
  if events.isEmpty then day_gantt baseH []
  else if events.any (fun e => e.startKey) then .chart (.month (monthDaily events))
  else .chart (.month ((List.range 31).map fun i =>
    (i + 1, if i + 1 = nowDay then events.length else 0)))

/-- Whether the bar of day `d` gets a count annotation: `if height > 0`
(line 249), with the height read off the `monthDaily` series. -/
def monthAnnotated (events : List Event) (d : ℕ) : Bool :=
  0 < (((monthDaily events).lookup d).getD 0)

/-- `GraphGenerator.semester_gantt` (lines 277-332): empty input yields the
friendly placeholder; otherwise the first 25 events (`events[:25]`) become
Gantt rows. -/
def semester_gantt (baseH : ℚ) (events : List Event) : Render :=
  if events.isEmpty then .placeholder "Семестр пустой 😔"
  else .chart (.semester (((events.take 25).enum).map fun p => semRow baseH p.1 p.2))

/-- `GraphGenerator.year_progress_line` (lines 335-381): the plotted data is
`clip(cumsum(randint(5,25,12)), 0, 100)` with the donut showing its last
entry — the event list is never read.  `rand` is the drawn random array. -/
def year_progress_line (events : List Event) (rand : List ℕ) : Render :=
  .chart (.year (min (rand.foldl (· + ·) 0) 100))

/-! ## GrokClient (src/grok_client.py) -/

/-- The kind of exception an API attempt raises, by its class in the
`openai` SDK hierarchy (`AuthenticationError`, `BadRequestError` and
`InternalServerError` all subclass `APIStatusError`, itself a subclass of
`APIError`; `APITimeoutError` subclasses `APIConnectionError`, itself a
subclass of `APIError`).  `nonApi` is any exception outside that
hierarchy (e.g. an `IndexError`/`AttributeError` while reading the
response). -/
inductive ApiErr where
  | connection
  | timeout
  | statusAuth
  | statusBadRequest
  | statusServer
  | nonApi
deriving DecidableEq, Repr

/-- `isinstance(e, (APIConnectionError, APITimeoutError, APIError))` — the
`except` clause of `_call_grok` (line 159).  Because every status error is
an `APIError`, auth failures and malformed requests are caught too; only
exceptions outside the SDK hierarchy escape. -/
def caughtByRetry (e : ApiErr) : Bool :=
  match e with
  | .nonApi => false
  | _ => true

/-- The transient kinds of the spec: connection failure, timeout, upstream
server error. -/
def retryableKind (e : ApiErr) : Bool :=
  match e with
  | .connection => true
  | .timeout => true
  | .statusServer => true
  | _ => false

/-- What one API attempt does: return a raw reply or raise. -/
inductive Outcome where
  | ok (raw : String)
  | err (e : ApiErr)
deriving DecidableEq, Repr

/-- The observable behaviour of one `_call_grok` run: its final result,
how many attempts were made, and the `asyncio.sleep` durations in order. -/
structure CallResult where
  result : Except ApiErr String
  attempts : ℕ
  sleeps : List ℕ
deriving Repr

/-- `GrokClient._call_grok` (lines 141-163), with `o i` the outcome of
attempt `i`: `for attempt in range(1, 4)` returns the first successful
reply; a caught exception before attempt 3 sleeps `2 ** attempt` and
retries; a caught exception on attempt 3, or any uncaught exception,
propagates. -/
def _call_grok (o : ℕ → Outcome) : CallResult :=
  match o 1 with
  | .ok raw => ⟨.ok raw, 1, []⟩
  | .err e =>
    if caughtByRetry e then
      match o 2 with
      | .ok raw => ⟨.ok raw, 2, [2]⟩
      | .err e2 =>
        if caughtByRetry e2 then
          match o 3 with
          | .ok raw => ⟨.ok raw, 3, [2, 4]⟩
          | .err e3 => ⟨.error e3, 3, [2, 4]⟩
        else ⟨.error e2, 2, [2]⟩
    else ⟨.error e, 1, []⟩

/-- `GrokClient._clean_json` (lines 165-172). -/
def _clean_json (raw : String) : String :=
  let r := raw.trim
  let r := if r.startsWith "```json" then r.drop 7 else r
  let r := if r.endsWith "```" then r.dropRight 3 else r
  r.trim

/-- One event object inside the reply JSON, as the client stores it. -/
structure RawEvent where
  title : Option String
  start : Option String
  stop : Option String
  color : Option String
deriving DecidableEq, Repr

/-- One inline button of the reply JSON. -/
structure Button where
  text : String
  callback : String
deriving DecidableEq, Repr

/-- The decoded JSON object before validation: the keys `analyze`
inspects, each possibly absent. -/
structure PlanData where
  type : Option String
  title : Option String
  advice : Option String
  events : List RawEvent
  buttons : List Button
  help_text : Option String
deriving DecidableEq, Repr

/-- The dict `analyze` returns, after the required keys are ensured. -/
structure PlanRecord where
  type : String
  title : String
  advice : String
  events : List RawEvent
  buttons : List Button
  help_text : Option String
deriving DecidableEq, Repr

/-- The closed PlanType set of the system prompt (lines 66-75). -/
def PlanTypes : List String :=
  ["schedule_day", "schedule_week", "schedule_month", "schedule_semester",
   "schedule_year", "goal_plan", "lesson_help", "meeting_help", "other"]

/-- The required-key validation of `analyze` (lines 190-193): each of
`type`, `title`, `advice` is defaulted when absent — `"other"` for `type`,
`"Не указано"` otherwise; present values pass through untouched. -/
def sanitize (d : PlanData) : PlanRecord :=
  { type := d.type.getD "other",
    title := d.title.getD "Не указано",
    advice := d.advice.getD "Не указано",
    events := d.events,
    buttons := d.buttons,
    help_text := d.help_text }

/-- `GrokClient._fallback_response` (lines 217-226): a fixed record, the
argument `userText` never read. -/
def _fallback_response (userText : String) : PlanRecord :=
  { type := "other",
    title := "Не удалось обработать запрос",
    advice := "Извини, Grok временно не смог обработать твой текст. Попробуй переформулировать или напиши проще!",
    events := [],
    buttons := [⟨"Попробовать снова", "retry"⟩],
    help_text := some "Нажми кнопку для повторной попытки" }

/-- The data `analyze` obtains before validation: `none` when the API call
raised or when `json.loads` fails on the cleaned reply.  `parse` stands for
`json.loads` followed by reading the keys into `PlanData`. -/
def analyzeParsed (o : ℕ → Outcome) (parse : String → Option PlanData) : Option PlanData :=
  match (_call_grok o).result with
  | .error _ => none
  | .ok raw => parse (_clean_json raw)

/-- `GrokClient.analyze` (lines 174-215): the decoded reply is validated
(`sanitize`) and then written to the database by the awaited
`db.add_event` call inside the same try block (lines 196-205) before being
returned.  `dbOk` is the outcome of that write in this run: when it raises,
the broad `except Exception` arm (lines 213-215) returns the fallback, just
as when the call raised or decoding failed (lines 210-212). -/
def analyze (userText : String) (o : ℕ → Outcome)
    (parse : String → Option PlanData) (dbOk : Bool) : PlanRecord :=
  match analyzeParsed o parse with
  | none => _fallback_response userText
  | some d => if dbOk then sanitize d else _fallback_response userText

/-! ## Observation helpers and sample data -/

/-- The Gantt rows plotted by a day chart (empty for any other image). -/
def Render.dayRows : Render → List DayRow
  | .chart (.day rows) => rows
  | _ => []

/-- The Gantt rows plotted by a semester chart. -/
def Render.semRows : Render → List SemRow
  | .chart (.semester rows) => rows
  | _ => []

/-- The occupancy grid plotted by a week heatmap. -/
def Render.weekGrid : Render → (ℕ → ℕ → ℕ)
  | .chart (.week g) => g
  | _ => fun _ _ => 0

/-- The per-day series plotted by a month bar chart. -/
def Render.monthSeries : Render → List (ℕ × ℕ)
  | .chart (.month s) => s
  | _ => []

/-- Total of all 18×7 heatmap cells. -/
def gridSum (g : ℕ → ℕ → ℕ) : ℕ :=
  ((List.range 18).map fun hi => ((List.range 7).map fun di => g hi di).sum).sum

/-- A start on day 5 of the month, Wednesday 10:00, 10 h after the epoch. -/
def dtD5 : DT := { absHours := 10, weekday := 2, hour := 10, day := 5 }

/-- The matching end timestamp, one hour later. -/
def dtD5e : DT := { absHours := 11, weekday := 2, hour := 11, day := 5 }

/-- A start on day 20 of the month, Saturday 14:00. -/
def dtD20 : DT := { absHours := 470, weekday := 5, hour := 14, day := 20 }

/-- An event with both timestamps parsable. -/
def evOk : Event :=
  { title := some "x", color := none, startKey := true,
    start := some dtD5, stop := some dtD5e }

/-- An event starting on day 20. -/
def evD20 : Event :=
  { title := some "y", color := none, startKey := true,
    start := some dtD20, stop := some dtD20 }

/-- An event whose timestamps fail to parse. -/
def evBad : Event :=
  { title := some "x", color := none, startKey := true,
    start := none, stop := none }

/-- An event with an explicit color and a lesson keyword in its title. -/
def evColorLesson : Event :=
  { title := some "Урок физики", color := some "#123456", startKey := false,
    start := none, stop := none }

/-- An event with an explicit color and no category keyword in its title. -/
def evPlainColor : Event :=
  { title := some "Обед", color := some "#123456", startKey := false,
    start := none, stop := none }

/-- An event with an explicit color and a meeting keyword in its title. -/
def evMeetingColor : Event :=
  { title := some "Встреча", color := some "#123456", startKey := false,
    start := none, stop := none }

/-- An event with an explicit color and a goal keyword in its title. -/
def evGoalColor : Event :=
  { title := some "План", color := some "#123456", startKey := false,
    start := none, stop := none }

/-- The month example of the spec: events on days 5, 5 and 20. -/
def exMonth : List Event := [evOk, evOk, evD20]

/-- Every API attempt times out. -/
def oTimeout : ℕ → Outcome := fun _ => .err .timeout

/-- The first API attempt fails with an auth error, later ones succeed. -/
def oAuth : ℕ → Outcome := fun i => if i = 1 then .err .statusAuth else .ok "ok"

/-- Every API attempt raises outside the SDK hierarchy. -/
def oNon : ℕ → Outcome := fun _ => .err .nonApi

/-- Every API attempt succeeds with the raw reply `"r"`. -/
def oOk : ℕ → Outcome := fun _ => .ok "r"

/-- A decoded reply whose `type` is not in the PlanType set. -/
def dBanana : PlanData :=
  { type := some "banana", title := some "t", advice := some "a",
    events := [], buttons := [], help_text := none }

/-- A decoded reply with no `type` key. -/
def dNoType : PlanData :=
  { type := none, title := none, advice := none,
    events := [], buttons := [], help_text := none }

/-! ## Helper lemmas -/

lemma caught_of_retryable {e : ApiErr} (h : retryableKind e = true) :
    caughtByRetry e = true := by
  cases e <;> simp_all [retryableKind, caughtByRetry]

lemma day_gantt_take (baseH : ℚ) (es : List Event) :
    day_gantt baseH es = day_gantt baseH (es.take 30) := by
  cases es with
  | nil => rfl
  | cons a t =>
      simp [day_gantt, List.take_succ_cons, List.take_take]

lemma day_gantt_length (baseH : ℚ) (es : List Event) :
    (day_gantt baseH es).dayRows.length = min es.length 30 := by
  cases es with
  | nil => simp [day_gantt, Render.dayRows]
  | cons a t =>
      simp [day_gantt, Render.dayRows, List.enum_length, List.length_take]
      omega

lemma semester_gantt_take (baseH : ℚ) (es : List Event) :
    semester_gantt baseH es = semester_gantt baseH (es.take 25) := by
  cases es with
  | nil => rfl
  | cons a t =>
      simp [semester_gantt, List.take_succ_cons, List.take_take]

lemma semester_gantt_length (baseH : ℚ) (es : List Event) :
    (semester_gantt baseH es).semRows.length = min es.length 25 := by
  cases es with
  | nil => simp [semester_gantt, Render.semRows]
  | cons a t =>
      simp [semester_gantt, Render.semRows, List.enum_length, List.length_take]
      omega

lemma dayRow_placeholder (baseH : ℚ) (i : ℕ) (ev : Event)
    (h : ev.start = none ∨ ev.stop = none) :
    dayRow baseH i ev =
      ⟨ev.title.getD ("Задача " ++ toString (i + 1)), (9 / 5 : ℚ) * i, 6 / 5,
       _get_event_color ev⟩ := by
  cases hs : ev.start <;> cases ht : ev.stop <;> simp_all [dayRow]

lemma semRow_placeholder (baseH : ℚ) (i : ℕ) (ev : Event)
    (h : ev.start = none ∨ ev.stop = none) :
    semRow baseH i ev =
      ⟨ev.title.getD ("Неделя " ++ toString (i + 1)), (i : ℚ), 2,
       _get_event_color ev⟩ := by
  cases hs : ev.start <;> cases ht : ev.stop <;> simp_all [semRow]

lemma week_heatmap_skip (es : List Event) (ev : Event) (h : ev.start = none) :
    week_heatmap (ev :: es) = week_heatmap es := by
  simp [week_heatmap, weekStep, h]

lemma monthDaily_skip (es : List Event) (ev : Event) (h : ev.start = none) :
    monthDaily (ev :: es) = monthDaily es := by
  simp [monthDaily, List.filterMap_cons, startDay?, h]

lemma lookup_monthDaily (es : List Event) (d : ℕ) (h1 : 1 ≤ d) (h2 : d ≤ 31) :
    (monthDaily es).lookup d = some ((es.filterMap startDay?).count d) := by
  interval_cases d <;> rfl

/-! ## Claim theorems -/

/-- C1, counterexample: an event carrying the explicit color `"#123456"` but a
lesson keyword (`урок`) in its title renders in the lesson palette color
`"#FF6B6B"`, not in its explicit color — the keyword match wins over the
explicit `color` field. -/
theorem C1_counterexample :
    evColorLesson.color = some "#123456"
    ∧ _get_event_color evColorLesson = "#FF6B6B"
    ∧ ("#FF6B6B" : String) ≠ "#123456" := by
  refine ⟨rfl, by decide, by decide⟩

/-- C1 as amended: the color of an event is resolved with the keyword match
first — the lesson set, then the meeting set, then the goal set, each mapped
to its palette color — and only when no keyword matches is the explicit
`color` field of the event used, with the default color when that too is
absent. -/
theorem C1_main (ev : Event) :
    (lessonWords.any (fun w => strContains (lowerStr (ev.title.getD "")) w) = true →
      _get_event_color ev = "#FF6B6B")
    ∧ (lessonWords.any (fun w => strContains (lowerStr (ev.title.getD "")) w) = false →
       meetingWords.any (fun w => strContains (lowerStr (ev.title.getD "")) w) = true →
      _get_event_color ev = "#4ECDC4")
    ∧ (lessonWords.any (fun w => strContains (lowerStr (ev.title.getD "")) w) = false →
       meetingWords.any (fun w => strContains (lowerStr (ev.title.getD "")) w) = false →
       goalWords.any (fun w => strContains (lowerStr (ev.title.getD "")) w) = true →
      _get_event_color ev = "#FFD166")
    ∧ (lessonWords.any (fun w => strContains (lowerStr (ev.title.getD "")) w) = false →
       meetingWords.any (fun w => strContains (lowerStr (ev.title.getD "")) w) = false →
       goalWords.any (fun w => strContains (lowerStr (ev.title.getD "")) w) = false →
        (∀ c, ev.color = some c → _get_event_color ev = c)
        ∧ (ev.color = none → _get_event_color ev = "#45B7D1")) := by
  refine ⟨?_, ?_, ?_, ?_⟩
  · intro h
    simp [_get_event_color, h]
    rfl
  · intro h1 h2
    simp [_get_event_color, h1, h2]
    rfl
  · intro h1 h2 h3
    simp [_get_event_color, h1, h2, h3]
    rfl
  · intro h1 h2 h3
    constructor
    · intro c hc
      simp [_get_event_color, h1, h2, h3, hc]
    · intro hc
      simp [_get_event_color, h1, h2, h3, hc]
      rfl

/-- C1 witness: the amended precedence evaluated at four sample events —
lesson, meeting and goal keyword titles each beat the same explicit color
with their own palette color, and a keyword-free title keeps it. -/
theorem C1_witness :
    (evColorLesson.color = some "#123456"
      ∧ _get_event_color evColorLesson = "#FF6B6B")
    ∧ (evMeetingColor.color = some "#123456"
      ∧ _get_event_color evMeetingColor = "#4ECDC4")
    ∧ (evGoalColor.color = some "#123456"
      ∧ _get_event_color evGoalColor = "#FFD166")
    ∧ (evPlainColor.color = some "#123456"
      ∧ _get_event_color evPlainColor = "#123456") :=
  ⟨⟨rfl, (C1_main evColorLesson).1 (by decide)⟩,
   ⟨rfl, (C1_main evMeetingColor).2.1 (by decide) (by decide)⟩,
   ⟨rfl, (C1_main evGoalColor).2.2.1 (by decide) (by decide) (by decide)⟩,
   ⟨rfl, ((C1_main evPlainColor).2.2.2 (by decide) (by decide) (by decide)).1 "#123456" rfl⟩⟩

/-- C2, counterexample: the renderers do not share a 30-entry cut.  On a
list of 26 parsable events `semester_gantt` renders only 25 rows (its cut is
`events[:25]`), and on a list of 31 events `week_heatmap` counts all 31 into
its grid, so the entry at index 30 does affect the output. -/
theorem C2_counterexample :
    (List.replicate 26 evOk).length = 26
    ∧ (semester_gantt 0 (List.replicate 26 evOk)).semRows.length = 25
    ∧ (week_heatmap (List.replicate 31 evOk)).weekGrid 4 2 = 31
    ∧ (week_heatmap ((List.replicate 31 evOk).take 30)).weekGrid 4 2 = 30 := by
  refine ⟨by decide, ?_, by decide, by decide⟩
  rw [semester_gantt_length]
  decide

/-- C2 as amended: `day_gantt` processes exactly the first 30 entries and
`semester_gantt` exactly the first 25 (in source order); `week_heatmap` and
`month_bar` process the whole list, and `year_progress_line` ignores the
event list entirely; every renderer is a total function of its input. -/
theorem C2_main :
    (∀ (baseH : ℚ) (es : List Event), day_gantt baseH es = day_gantt baseH (es.take 30))
    ∧ (∀ (baseH : ℚ) (es : List Event), (day_gantt baseH es).dayRows.length = min es.length 30)
    ∧ (∀ (baseH : ℚ) (es : List Event),
        semester_gantt baseH es = semester_gantt baseH (es.take 25))
    ∧ (∀ (baseH : ℚ) (es : List Event),
        (semester_gantt baseH es).semRows.length = min es.length 25)
    ∧ (∀ (es : List Event) (rand : List ℕ),
        year_progress_line es rand = year_progress_line [] rand)
    ∧ ((week_heatmap (List.replicate 31 evOk)).weekGrid 4 2 = 31
        ∧ (week_heatmap ((List.replicate 31 evOk).take 30)).weekGrid 4 2 = 30)
    ∧ (month_bar 0 1 (List.replicate 31 evOk)).monthSeries
        ≠ (month_bar 0 1 ((List.replicate 31 evOk).take 30)).monthSeries :=
  ⟨day_gantt_take, day_gantt_length, semester_gantt_take, semester_gantt_length,
   fun _ _ => rfl, ⟨by decide, by decide⟩, by decide⟩

/-- C3, counterexample: a decoded reply whose `type` is `"banana"` — a value
outside the PlanType set — keeps that value through sanitization; no
coercion to `"other"` happens for present values. -/
theorem C3_counterexample :
    (sanitize dBanana).type = "banana" ∧ "banana" ∉ PlanTypes := by
  refine ⟨rfl, by decide⟩

/-- C3 as amended: sanitization defaults a missing `type` to `"other"`, but
passes a present `type` value through unchanged, even when it lies outside
the closed PlanType set — membership is not enforced. -/
theorem C3_main (d : PlanData) :
    (d.type = none → (sanitize d).type = "other")
    ∧ (∀ s, d.type = some s → (sanitize d).type = s) := by
  constructor
  · intro h
    simp [sanitize, h]
  · intro s h
    simp [sanitize, h]

/-- C3 witness: the amended rule evaluated at a reply lacking `type` and at
the out-of-set reply. -/
theorem C3_witness :
    (sanitize dNoType).type = "other" ∧ (sanitize dBanana).type = "banana" :=
  ⟨(C3_main dNoType).1 rfl, (C3_main dBanana).2 "banana" rfl⟩

/-- C4: when every attempt fails with a retryable kind, `_call_grok` makes
exactly 3 attempts, sleeps `2 ^ attempt` after failed attempt `attempt`
(so `[2 ^ 1, 2 ^ 2]` in order), and after the third failure propagates the
error to the caller. -/
theorem C4_main (o : ℕ → Outcome)
    (h : ∀ i, 1 ≤ i → i ≤ 3 → ∃ e, o i = .err e ∧ retryableKind e = true) :
    (_call_grok o).attempts = 3
    ∧ (_call_grok o).sleeps = [2 ^ 1, 2 ^ 2]
    ∧ ∃ e, (_call_grok o).result = .error e ∧ retryableKind e = true := by
  obtain ⟨e1, h1, r1⟩ := h 1 (by omega) (by omega)
  obtain ⟨e2, h2, r2⟩ := h 2 (by omega) (by omega)
  obtain ⟨e3, h3, r3⟩ := h 3 (by omega) (by omega)
  have hres : _call_grok o = ⟨.error e3, 3, [2 ^ 1, 2 ^ 2]⟩ := by
    simp [_call_grok, h1, h2, h3, caught_of_retryable r1, caught_of_retryable r2]
  rw [hres]
  exact ⟨rfl, rfl, e3, rfl, r3⟩

/-- C4 witness: the all-timeouts run makes 3 attempts, sleeps 2 then 4, and
fails. -/
theorem C4_witness :
    (∀ i, 1 ≤ i → i ≤ 3 → ∃ e, oTimeout i = .err e ∧ retryableKind e = true)
    ∧ (_call_grok oTimeout).attempts = 3
    ∧ (_call_grok oTimeout).sleeps = [2 ^ 1, 2 ^ 2]
    ∧ ∃ e, (_call_grok oTimeout).result = .error e ∧ retryableKind e = true :=
  ⟨fun _ _ _ => ⟨.timeout, rfl, rfl⟩,
   C4_main oTimeout (fun _ _ _ => ⟨.timeout, rfl, rfl⟩)⟩

/-- C5, counterexample: an auth failure on the first attempt does not fail
immediately — being an `APIError`, it is caught, a 2-unit backoff runs, and
a second attempt is made (which here succeeds). -/
theorem C5_counterexample :
    oAuth 1 = .err .statusAuth
    ∧ (_call_grok oAuth).attempts = 2
    ∧ (_call_grok oAuth).sleeps = [2]
    ∧ (_call_grok oAuth).result = .ok "ok" :=
  ⟨rfl, rfl, rfl, rfl⟩

/-- C5 as amended: only an exception outside the SDK `APIError` hierarchy
makes the client fail immediately, without consuming the remaining attempts
and without any backoff; malformed-request and auth failures are `APIError`
instances, so they are caught and retried like the transient kinds. -/
theorem C5_main :
    (∀ (o : ℕ → Outcome) (e : ApiErr), o 1 = .err e → caughtByRetry e = false →
      _call_grok o = ⟨.error e, 1, []⟩)
    ∧ (∀ (o : ℕ → Outcome) (e : ApiErr), o 1 = .err e → caughtByRetry e = true →
      2 ≤ (_call_grok o).attempts)
    ∧ caughtByRetry .statusAuth = true
    ∧ caughtByRetry .statusBadRequest = true
    ∧ caughtByRetry .nonApi = false := by
  refine ⟨?_, ?_, rfl, rfl, rfl⟩
  · intro o e h hc
    simp [_call_grok, h, hc]
  · intro o e h hc
    cases h2 : o 2 with
    | ok raw => simp [_call_grok, h, hc, h2]
    | err e2 =>
        by_cases c2 : caughtByRetry e2
        · cases h3 : o 3 <;> simp [_call_grok, h, hc, h2, h3, c2]
        · simp [_call_grok, h, hc, h2, c2]

/-- C5 witness: the amended rule evaluated at a non-SDK exception (immediate
failure, one attempt, no sleep) and at the auth-failure run (retried). -/
theorem C5_witness :
    (oNon 1 = .err .nonApi ∧ _call_grok oNon = ⟨.error .nonApi, 1, []⟩)
    ∧ (oAuth 1 = .err .statusAuth ∧ 2 ≤ (_call_grok oAuth).attempts) :=
  ⟨⟨rfl, C5_main.1 oNon .nonApi rfl rfl⟩,
   ⟨rfl, C5_main.2.1 oAuth .statusAuth rfl rfl⟩⟩

/-- C6, counterexample: the fallback record is returned on two paths the
claim excludes — a non-SDK exception on attempt 1 aborts the call after a
single attempt (no exhaustion, nothing to parse), and a raising database
write falls back even though the call succeeded and the reply parsed. -/
theorem C6_counterexample :
    analyze "txt" oNon (fun _ => some dNoType) true = _fallback_response "txt"
    ∧ (_call_grok oNon).attempts = 1
    ∧ analyze "txt" oOk (fun _ => some dNoType) false = _fallback_response "txt"
    ∧ (_call_grok oOk).result = .ok "r" :=
  ⟨rfl, rfl, rfl, rfl⟩

/-- C6 as amended: the fallback synthesizer is a total function producing
`type = "other"`, the fixed apologetic advice string, an empty events list
and exactly one retry button; `analyze` returns it exactly when the
reasoning call fails (by exhausting its attempts on caught API errors, or
early on an uncaught exception), or the reply cannot be parsed as
structured data, or the awaited database write of the validated reply
raises; only when the call, the parse and the write all succeed is the
sanitized reply returned. -/
theorem C6_main (text : String) (o : ℕ → Outcome)
    (parse : String → Option PlanData) (dbOk : Bool) :
    (_fallback_response text).type = "other"
    ∧ (_fallback_response text).advice =
        "Извини, Grok временно не смог обработать твой текст. Попробуй переформулировать или напиши проще!"
    ∧ (_fallback_response text).events = []
    ∧ (_fallback_response text).buttons = [⟨"Попробовать снова", "retry"⟩]
    ∧ (analyzeParsed o parse = none ↔
        (∃ e, (_call_grok o).result = .error e)
        ∨ (∃ raw, (_call_grok o).result = .ok raw ∧ parse (_clean_json raw) = none))
    ∧ (analyzeParsed o parse = none → analyze text o parse dbOk = _fallback_response text)
    ∧ (∀ d, analyzeParsed o parse = some d → dbOk = true →
        analyze text o parse dbOk = sanitize d)
    ∧ (∀ d, analyzeParsed o parse = some d → dbOk = false →
        analyze text o parse dbOk = _fallback_response text) := by
  refine ⟨rfl, rfl, rfl, rfl, ?_, ?_, ?_, ?_⟩
  · unfold analyzeParsed
    cases hr : (_call_grok o).result with
    | error e => simp
    | ok raw => simp
  · intro h
    simp [analyze, h]
  · intro d h hdb
    simp [analyze, h, hdb]
  · intro d h hdb
    simp [analyze, h, hdb]

/-- C6 witness: with every attempt timing out `analyze` returns exactly the
fallback record; with a successful call and parse it falls back exactly
when the database write raises. -/
theorem C6_witness :
    analyze "привет" oTimeout (fun _ => none) true = _fallback_response "привет"
    ∧ analyze "привет" oOk (fun _ => some dNoType) false = _fallback_response "привет"
    ∧ analyze "привет" oOk (fun _ => some dNoType) true = sanitize dNoType :=
  ⟨(C6_main "привет" oTimeout (fun _ => none) true).2.2.2.2.2.1 rfl,
   (C6_main "привет" oOk (fun _ => some dNoType) false).2.2.2.2.2.2.2 dNoType rfl rfl,
   (C6_main "привет" oOk (fun _ => some dNoType) true).2.2.2.2.2.2.1 dNoType rfl rfl⟩

/-- C7, counterexample: `week_heatmap` does not replace an unparsable event
by a placeholder — it drops it: one bad event renders identically to the
empty list, and the grid total is 0 although the truncated input count is 1. -/
theorem C7_counterexample :
    week_heatmap [evBad] = week_heatmap []
    ∧ gridSum ((week_heatmap [evBad]).weekGrid) = 0
    ∧ ([evBad] : List Event).length = 1 :=
  ⟨week_heatmap_skip [] evBad rfl, by decide, rfl⟩

/-- C7 as amended: in `day_gantt` and `semester_gantt` an event whose start
or end fails to parse is replaced by a positional synthetic placeholder
(day: start `1.8·i` hours, duration `1.2` h; semester: start week `i`,
duration 2 weeks), so their row counts always equal the truncated input
count; `week_heatmap` instead silently skips unparsable events and
`month_bar` drops them from its day counts. -/
theorem C7_main :
    (∀ (baseH : ℚ) (i : ℕ) (ev : Event), ev.start = none ∨ ev.stop = none →
      dayRow baseH i ev =
        ⟨ev.title.getD ("Задача " ++ toString (i + 1)), (9 / 5 : ℚ) * i, 6 / 5,
         _get_event_color ev⟩)
    ∧ (∀ (baseH : ℚ) (es : List Event), (day_gantt baseH es).dayRows.length = min es.length 30)
    ∧ (∀ (baseH : ℚ) (i : ℕ) (ev : Event), ev.start = none ∨ ev.stop = none →
      semRow baseH i ev =
        ⟨ev.title.getD ("Неделя " ++ toString (i + 1)), (i : ℚ), 2,
         _get_event_color ev⟩)
    ∧ (∀ (baseH : ℚ) (es : List Event),
        (semester_gantt baseH es).semRows.length = min es.length 25)
    ∧ (∀ (es : List Event) (ev : Event), ev.start = none →
        week_heatmap (ev :: es) = week_heatmap es)
    ∧ (∀ (es : List Event) (ev : Event), ev.start = none →
        monthDaily (ev :: es) = monthDaily es) :=
  ⟨dayRow_placeholder, day_gantt_length, semRow_placeholder, semester_gantt_length,
   week_heatmap_skip, monthDaily_skip⟩

/-- C7 witness: the placeholder rule evaluated at the unparsable sample
event in position 3. -/
theorem C7_witness :
    (evBad.start = none ∨ evBad.stop = none)
    ∧ dayRow 0 3 evBad = ⟨"x", (9 / 5 : ℚ) * 3, 6 / 5, "#45B7D1"⟩
    ∧ semRow 0 3 evBad = ⟨"x", (3 : ℕ), 2, "#45B7D1"⟩
    ∧ week_heatmap [evBad] = week_heatmap [] :=
  ⟨Or.inl rfl,
   C7_main.1 0 3 evBad (Or.inl rfl),
   C7_main.2.2.1 0 3 evBad (Or.inl rfl),
   C7_main.2.2.2.2.1 [] evBad rfl⟩

/-- C8, counterexample: on an empty event list neither `week_heatmap` (an
all-zero heatmap) nor `year_progress_line` (its usual progress chart)
returns a friendly-message placeholder. -/
theorem C8_counterexample :
    (week_heatmap []).isPlaceholder = false
    ∧ (year_progress_line [] (List.replicate 12 10)).isPlaceholder = false :=
  ⟨rfl, rfl⟩

/-- C8 as amended: on an empty event list `day_gantt` and `semester_gantt`
return friendly-message placeholders and `month_bar` delegates to the
`day_gantt` placeholder, while `week_heatmap` renders an all-zero heatmap
and `year_progress_line` its usual chart — neither of the latter two is a
placeholder; all five are total functions. -/
theorem C8_main (baseH : ℚ) (nowDay : ℕ) (rand : List ℕ) :
    day_gantt baseH [] = .placeholder "На сегодня событий нет 😔\nНапиши мне что-нибудь!"
    ∧ semester_gantt baseH [] = .placeholder "Семестр пустой 😔"
    ∧ month_bar baseH nowDay [] = day_gantt baseH []
    ∧ (week_heatmap []).isPlaceholder = false
    ∧ (∀ hi di, (week_heatmap []).weekGrid hi di = 0)
    ∧ (year_progress_line [] rand).isPlaceholder = false :=
  ⟨rfl, rfl, rfl, rfl, fun _ _ => rfl, rfl⟩

/-- C9: the month renderer groups events by day-of-month over days 1–31
with zero-filled gaps: the series value at day `d` equals the number of
events whose parsed start falls on day `d`, and the bar is annotated with
its count exactly when that count is nonzero; on the sample events with
days 5, 5, 20 the heights are 2 at day 5, 1 at day 20 and 0 elsewhere. -/
theorem C9_main :
    (∀ (es : List Event) (d : ℕ), 1 ≤ d → d ≤ 31 →
      ((monthDaily es).lookup d).getD 0 = es.countP (fun e => startDay? e == some d)
      ∧ (monthAnnotated es d = true ↔ es.countP (fun e => startDay? e == some d) ≠ 0))
    ∧ ((monthDaily exMonth).lookup 5).getD 0 = 2
    ∧ ((monthDaily exMonth).lookup 20).getD 0 = 1
    ∧ (∀ d ∈ (List.range 31).map (· + 1), d ≠ 5 → d ≠ 20 →
        ((monthDaily exMonth).lookup d).getD 0 = 0) := by
  refine ⟨?_, by decide, by decide, by decide⟩
  intro es d h1 h2
  have hl := lookup_monthDaily es d h1 h2
  have hc := List.count_filterMap d startDay? es
  constructor
  · rw [hl, Option.getD_some, hc]
  · rw [monthAnnotated, hl]
    simp [Option.getD_some, hc]

/-- C9 witness: the grouping law evaluated at the sample list and day 5. -/
theorem C9_witness :
    ((monthDaily exMonth).lookup 5).getD 0
      = exMonth.countP (fun e => startDay? e == some 5)
    ∧ (monthAnnotated exMonth 5 = true
        ↔ exMonth.countP (fun e => startDay? e == some 5) ≠ 0) :=
  C9_main.1 exMonth 5 (by decide) (by decide)

/-- C10: the fallback record is independent of the original user text — any
two inputs yield structurally identical records. -/
theorem C10_main :
    ∀ t₁ t₂ : String, _fallback_response t₁ = _fallback_response t₂ :=
  fun _ _ => rfl

end TgPlanner
